import Mathlib

/-!
Shallow embedding of the FarmaUPSA pharmacy server (src/server.js, two bundled
variants of the file, here suffixed A for the transactional variant and B for
the earlier variant) together with the pieces of src/models/Medicamento.js the
order-processing routes depend on.  Machine numbers are modelled as Int (Mongo
stores plain numbers, the schema puts no lower bound on stock), client-supplied
values as a small JavaScript-value type so that the Number(x) coercions of the
source can be reproduced exactly.
-/

/-- Result of JavaScript Number(x) on a client-supplied field: either a numeric
value or NaN (non-numeric strings, undefined, objects...). -/
inductive JsVal where
  | num (n : Int)
  | nan
deriving Repr, DecidableEq

/-- The idiom Number(x) or-else 0 used throughout server.js: NaN (falsy) is
replaced by 0; the value 0 itself is falsy too but the fallback is also 0. -/
def numberOr0 : JsVal → Int
  | .num n => n
  | .nan => 0

/-- JavaScript comparison stock >= q where q may be NaN (variant B uses the raw
client quantity without coercion); any comparison with NaN is false. -/
def jsGe (stock : Int) (q : JsVal) : Bool :=
  match q with
  | .num n => decide (n ≤ stock)
  | .nan => false

/-- JavaScript comparison stock < q with a possibly-NaN right operand. -/
def jsLt (stock : Int) (q : JsVal) : Bool :=
  match q with
  | .num n => decide (stock < n)
  | .nan => false

/-- The numeric content of a JsVal (only read on paths where the source has
already established the value is a number). -/
def jsNum : JsVal → Int
  | .num n => n
  | .nan => 0

/-- A stored product, following medicamentoSchema in src/models/Medicamento.js:
nombre (String, required), precio (Number, required), stock (Number, default 0,
no lower bound), controlado (Boolean, default false). -/
structure Medicamento where
  id : Nat
  nombre : String
  precio : Int
  stock : Int
  controlado : Bool
deriving Repr, DecidableEq

/-- The medicamentos collection. -/
abbrev Store := List Medicamento

/-- Medicamento.findById. -/
def findById (store : Store) (id : Nat) : Option Medicamento :=
  store.find? (fun m => m.id == id)

/-- A client-submitted order line as it reaches the server: an identifier and a
raw quantity field. -/
structure Item where
  id : Nat
  cantidad : JsVal
deriving Repr, DecidableEq

/-!  POST /api/verificar-stock, variant A (the handler with per-item coercion
Number(item.cantidad) and the Cantidad invalida branch).  Each item is handled
with Medicamento.findById only; the store is threaded through every per-item
step to record that reads leave it unchanged. -/

/-- Per-line verdict of variant A stock verification. -/
inductive VerdictA where
  | noEncontrado (id : Nat)
  | cantidadInvalida (id : Nat) (nombre : String)
  | stockInsuficiente (id : Nat) (nombre : String) (disponible : Int)
  | ok (id : Nat) (nombre : String) (precio : Int) (disponible : Int)
deriving Repr, DecidableEq

/-- The valido flag the handler attaches to each per-line result. -/
def VerdictA.esValido : VerdictA → Bool
  | .ok _ _ _ _ => true
  | _ => false

/-- One item of /api/verificar-stock variant A: findById, then the Cantidad
invalida check on Number(item.cantidad) or-else 0, then the stock check on
Number(medicamento.stock) or-else 0.  Returns the verdict together with the
store as the await left it. -/
def verificarItemA (store : Store) (item : Item) : VerdictA × Store :=
  match findById store item.id with
  | none => (.noEncontrado item.id, store)
  | some m =>
    let cantidad := numberOr0 item.cantidad
    let stockDisponible := m.stock
    if cantidad ≤ 0 then (.cantidadInvalida item.id m.nombre, store)
    else if stockDisponible < cantidad then
      (.stockInsuficiente item.id m.nombre stockDisponible, store)
    else (.ok item.id m.nombre m.precio stockDisponible, store)

/-- Sequencing of the per-item handlers with the store threaded through. -/
def mapStore (f : Store → Item → VerdictA × Store) :
    Store → List Item → List VerdictA × Store
  | s, [] => ([], s)
  | s, it :: rest =>
    ((f s it).1 :: (mapStore f (f s it).2 rest).1,
      (mapStore f (f s it).2 rest).2)

/-- Response shape of /api/verificar-stock variant A. -/
inductive RespVerificarA where
  | problemas (errors : List VerdictA)
  | exito (items : List VerdictA)
deriving Repr, DecidableEq

/-- POST /api/verificar-stock, variant A: run every line, collect the invalid
verdicts, answer 400 with the full error list if any, else 200 with all
lines. -/
def verificarStockA (store : Store) (items : List Item) : RespVerificarA × Store :=
  let r := mapStore verificarItemA store items
  let errores := r.1.filter (fun x => !x.esValido)
  if 0 < errores.length then (.problemas errores, r.2)
  else (.exito r.1, r.2)

/-!  POST /api/verificar-stock, variant B (no quantity coercion: the raw client
quantity is compared with JavaScript semantics). -/

/-- Per-line verdict of variant B stock verification. -/
inductive VerdictB where
  | noEncontrado (id : Nat)
  | stockInsuficiente (id : Nat) (nombre : String) (disponible : Int)
  | ok (id : Nat) (nombre : String) (disponible : Int)
deriving Repr, DecidableEq

/-- The valido flag of variant B verification results. -/
def VerdictB.esValido : VerdictB → Bool
  | .ok _ _ _ => true
  | _ => false

/-- One item of /api/verificar-stock variant B: findById, then the raw check
medicamento.stock < item.cantidad. -/
def verificarItemB (store : Store) (item : Item) : VerdictB × Store :=
  match findById store item.id with
  | none => (.noEncontrado item.id, store)
  | some m =>
    if jsLt m.stock item.cantidad then
      (.stockInsuficiente item.id m.nombre m.stock, store)
    else (.ok item.id m.nombre m.stock, store)

/-- Sequencing for variant B verification. -/
def mapStoreB (f : Store → Item → VerdictB × Store) :
    Store → List Item → List VerdictB × Store
  | s, [] => ([], s)
  | s, it :: rest =>
    ((f s it).1 :: (mapStoreB f (f s it).2 rest).1,
      (mapStoreB f (f s it).2 rest).2)

/-- Response shape of /api/verificar-stock variant B. -/
inductive RespVerificarB where
  | problemas (errors : List VerdictB)
  | exito (items : List VerdictB)
deriving Repr, DecidableEq

/-- POST /api/verificar-stock, variant B. -/
def verificarStockB (store : Store) (items : List Item) : RespVerificarB × Store :=
  let r := mapStoreB verificarItemB store items
  let errores := r.1.filter (fun x => !x.esValido)
  if 0 < errores.length then (.problemas errores, r.2)
  else (.exito r.1, r.2)

/-!  The in-process catalog cache (cacheMedicamentos in variant A): a snapshot
of the collection plus capture timestamp and ttl of 60000 ms. -/

/-- The cacheMedicamentos object: data and timestamp start as null. -/
structure Cache where
  timestamp : Option Nat
  data : Option Store
  ttl : Nat
deriving Repr, DecidableEq

/-!  POST /api/pedidos, variant A: coercing validation filter, per-line check
against findById, then a bulkWrite of conditional updateOne operations inside a
transaction, then an in-place cache update and the response.

The handler performs its findById reads first and its bulkWrite afterwards;
between the two, concurrently running requests may commit their own updates.
The embedding therefore takes the store twice: storeVal is the state the
validation reads observed, storeCommit the state the bulkWrite is applied to.
A run without interference passes the same store for both (pedidosA below). -/

/-- A validated item after the initial map/filter: cantidad is
Number(item.cantidad) or-else 0, and lines with cantidad not greater than 0
have been dropped by the filter. -/
structure ItemV where
  id : Nat
  cantidad : Int
deriving Repr, DecidableEq

/-- The initial validation of /api/pedidos variant A: coerce every quantity,
then keep only the lines whose coerced quantity is positive. -/
def itemsValidados (items : List Item) : List ItemV :=
  (items.map (fun it => ItemV.mk it.id (numberOr0 it.cantidad))).filter
    (fun it => 0 < it.cantidad)

/-- Outcome of preparing one line of variant A: either a per-line error or a
valid operation carrying the medicamento fields read at validation time and
the conditional updateOne to be executed. -/
inductive OpA where
  | errNoEncontrado (id : Nat)
  | errStock (id : Nat) (nombre : String) (disponible : Int)
  | op (id : Nat) (nombre : String) (precio : Int) (stockLeido : Int) (cantidad : Int)
deriving Repr, DecidableEq

/-- Whether the prepared operation carries the valido flag (no error field). -/
def OpA.esValida : OpA → Bool
  | .op _ _ _ _ _ => true
  | _ => false

/-- Preparing one line: findById against the validation-time store, reject
missing products and lines whose quantity exceeds the stock just read,
otherwise record the conditional update. -/
def prepararOperacion (storeVal : Store) (it : ItemV) : OpA :=
  match findById storeVal it.id with
  | none => .errNoEncontrado it.id
  | some m =>
    if m.stock < it.cantidad then .errStock it.id m.nombre m.stock
    else .op it.id m.nombre m.precio m.stock it.cantidad

/-- One updateOne of the bulkWrite: filter on the id and stock at least
cantidad, update $inc stock by minus cantidad.  A document that fails the
filter is simply not matched (the write is a no-op, not an error). -/
def updateOneCond : Store → Nat → Int → Store
  | [], _, _ => []
  | m :: rest, id, c =>
    if m.id == id && c ≤ m.stock then { m with stock := m.stock - c } :: rest
    else m :: updateOneCond rest id c

/-- Medicamento.bulkWrite of the valid operations, executed in order inside
one transaction. -/
def bulkWriteA (store : Store) (ops : List OpA) : Store :=
  ops.foldl
    (fun s o =>
      match o with
      | .op id _ _ _ c => updateOneCond s id c
      | _ => s)
    store

/-- The in-place cache edit after commit: for each valid operation, find the
cached entry with that id and subtract cantidad from its stock field.  The
timestamp and ttl are left untouched. -/
def decEnCacheData : Store → Nat → Int → Store
  | [], _, _ => []
  | m :: rest, id, c =>
    if m.id == id then { m with stock := m.stock - c } :: rest
    else m :: decEnCacheData rest id c

/-- The cacheMedicamentos.data loop of variant A (skipped when data is null). -/
def actualizarCacheA (cache : Cache) (ops : List OpA) : Cache :=
  match cache.data with
  | none => cache
  | some d =>
    { cache with
      data := some (ops.foldl
        (fun dd o =>
          match o with
          | .op id _ _ _ c => decEnCacheData dd id c
          | _ => dd)
        d) }

/-- The order identifier: the template literal PED- followed by Date.now(). -/
def numeroPedido (now : Nat) : String :=
  "PED-" ++ toString now

/-- One line of the success response of variant A: nuevoStock is computed from
the stock read at validation time, not from the committed document. -/
structure ItemPedidoA where
  id : Nat
  nombre : String
  cantidad : Int
  precio : Int
  nuevoStock : Int
deriving Repr, DecidableEq

/-- Response shape of /api/pedidos variant A. -/
inductive RespPedidosA where
  | sinItemsValidos
  | rechazado (errors : List OpA)
  | exito (pedido : String) (items : List ItemPedidoA)
deriving Repr, DecidableEq

/-- The response line built from a valid operation. -/
def itemRespuestaA : OpA → Option ItemPedidoA
  | .op id nombre precio stockLeido c =>
      some (ItemPedidoA.mk id nombre c precio (stockLeido - c))
  | _ => none

/-- POST /api/pedidos, variant A, with the validation-time and commit-time
store states passed separately (they coincide when no concurrent request
commits in between). -/
def pedidosAFases (storeVal storeCommit : Store) (cache : Cache) (now : Nat)
    (items : List Item) : RespPedidosA × Store × Cache :=
  let validados := itemsValidados items
  if validados.length = 0 then (.sinItemsValidos, storeCommit, cache)
  else
    let operaciones := validados.map (prepararOperacion storeVal)
    let errores := operaciones.filter (fun o => !o.esValida)
    if 0 < errores.length then (.rechazado errores, storeCommit, cache)
    else
      let s1 := bulkWriteA storeCommit operaciones
      let cache1 := actualizarCacheA cache operaciones
      (.exito (numeroPedido now) (operaciones.filterMap itemRespuestaA), s1, cache1)

/-- POST /api/pedidos, variant A, run without interference between the
validation reads and the bulkWrite. -/
def pedidosA (store : Store) (cache : Cache) (now : Nat) (items : List Item) :
    RespPedidosA × Store × Cache :=
  pedidosAFases store store cache now items

/-!  POST /api/pedidos, variant B: a per-line check (no coercion, no
aggregation), then one unconditional findByIdAndUpdate $inc per line.  As with
variant A the reads and the writes are separated so interleavings with other
requests can be expressed. -/

/-- One entry of verificacionStock in variant B: the document found (or none),
the raw quantity, and the valido flag medicamento exists and stock at least
cantidad under JavaScript comparison. -/
structure VerifB where
  medicamento : Option Medicamento
  cantidad : JsVal
  valido : Bool
deriving Repr, DecidableEq

/-- The verificacionStock read of one line of variant B. -/
def verificarPedidoB (storeVal : Store) (item : Item) : VerifB :=
  let m := findById storeVal item.id
  { medicamento := m
    cantidad := item.cantidad
    valido :=
      match m with
      | some mm => jsGe mm.stock item.cantidad
      | none => false }

/-- findByIdAndUpdate with $inc stock minus cantidad and new true: the
decrement is unconditional, and the updated document is returned. -/
def findByIdAndUpdateInc : Store → Nat → Int → Store × Option Medicamento
  | [], _, _ => ([], none)
  | m :: rest, id, c =>
    if m.id == id then
      let m1 := { m with stock := m.stock - c }
      (m1 :: rest, some m1)
    else
      let (rest1, r) := findByIdAndUpdateInc rest id c
      (m :: rest1, r)

/-- One line of the success response of variant B. -/
structure ItemPedidoB where
  id : Nat
  nombre : String
  cantidad : Int
  precio : Int
  stockAnterior : Int
  stockNuevo : Int
deriving Repr, DecidableEq

/-- Response shape of /api/pedidos variant B. -/
inductive RespPedidosB where
  | rechazado (errors : List (Nat × String))
  | exito (pedido : String) (items : List ItemPedidoB)
deriving Repr, DecidableEq

/-- The update loop of variant B: apply the unconditional decrement for each
verified line in turn and build the response lines from the updated
documents. -/
def aplicarPedidosB (store : Store) : List VerifB → Store × List ItemPedidoB
  | [] => (store, [])
  | v :: rest =>
    match v.medicamento with
    | some m =>
      let c := jsNum v.cantidad
      let (s1, actualizado) := findByIdAndUpdateInc store m.id c
      let (s2, items) := aplicarPedidosB s1 rest
      match actualizado with
      | some mu =>
        (s2, ItemPedidoB.mk mu.id mu.nombre c mu.precio m.stock mu.stock :: items)
      | none => (s2, items)
    | none =>
      let (s2, items) := aplicarPedidosB store rest
      (s2, items)

/-- The error entry variant B builds for an invalid line. -/
def errorPedidoB (v : VerifB) : Nat × String :=
  match v.medicamento with
  | some m => (m.id, "Stock insuficiente")
  | none => (0, "Medicamento no existe")

/-- POST /api/pedidos, variant B, with the validation-time and commit-time
store states passed separately. -/
def pedidosBFases (storeVal storeCommit : Store) (now : Nat)
    (items : List Item) : RespPedidosB × Store :=
  let verificacion := items.map (verificarPedidoB storeVal)
  let invalidos := verificacion.filter (fun v => !v.valido)
  if 0 < invalidos.length then
    (.rechazado (invalidos.map errorPedidoB), storeCommit)
  else
    let r := aplicarPedidosB storeCommit verificacion
    (.exito (numeroPedido now) r.2, r.1)

/-- POST /api/pedidos, variant B, run without interference. -/
def pedidosB (store : Store) (now : Nat) (items : List Item) :
    RespPedidosB × Store :=
  pedidosBFases store store now items

/-!  GET /cargar-datos.  Variant A normalizes controlado, stock and precio
before deleteMany plus insertMany and replaces the cache wholesale; variant B
only normalizes controlado, so the schema of src/models/Medicamento.js decides
what insertMany accepts (precio is required, stock defaults to 0, a
non-numeric number field is a cast error). -/

/-- One record of the externally supplied medicamentos.json: fields may be
missing or non-numeric. -/
structure RawMed where
  nombre : String
  precio : Option JsVal
  stock : Option JsVal
  controlado : Option Bool
deriving Repr, DecidableEq

/-- Number(field) or-else 0 on an optional raw field: a missing field is
undefined, Number(undefined) is NaN, so it also falls back to 0. -/
def coerceCampo : Option JsVal → Int
  | some (.num n) => n
  | some .nan => 0
  | none => 0

/-- Variant A normalization of one record; the identifier is the position the
inserted document receives in the collection. -/
def normalizarA (idx : Nat) (r : RawMed) : Medicamento :=
  { id := idx
    nombre := r.nombre
    precio := coerceCampo r.precio
    stock := coerceCampo r.stock
    controlado := r.controlado == some true }

/-- Response shape of GET /cargar-datos. -/
inductive RespCargar where
  | exito (insertados : Nat)
  | fallo
deriving Repr, DecidableEq

/-- GET /cargar-datos, variant A: normalize every record, deleteMany then
insertMany, and replace cacheMedicamentos wholesale with the normalized data
and a fresh timestamp. -/
def cargarDatosA (raw : List RawMed) (now : Nat) :
    RespCargar × Store × Cache :=
  let datosNormalizados := (List.range raw.length).zipWith normalizarA raw
  (.exito datosNormalizados.length, datosNormalizados,
    { timestamp := some now, data := some datosNormalizados, ttl := 60000 })

/-- Whether one only-controlado-normalized record passes the schema validation
insertMany performs in variant B: precio is required and must cast to a
number, stock may be absent (default 0) but must cast when present. -/
def pasaEsquema (r : RawMed) : Bool :=
  (match r.precio with
   | some (.num _) => true
   | _ => false) &&
  (match r.stock with
   | none => true
   | some (.num _) => true
   | some .nan => false)

/-- The document variant B stores for a record that passes the schema: only
controlado was normalized by the handler, stock falls back to the schema
default 0 when absent. -/
def normalizarB (idx : Nat) (r : RawMed) : Medicamento :=
  { id := idx
    nombre := r.nombre
    precio := coerceCampo r.precio
    stock := coerceCampo r.stock
    controlado := r.controlado == some true }

/-- GET /cargar-datos, variant B: deleteMany always runs; the ordered
insertMany validates the documents against the schema and inserts none of
them when any record is rejected, so the handler then answers 500 with the
collection left empty. -/
def cargarDatosB (raw : List RawMed) : RespCargar × Store :=
  if raw.all pasaEsquema then
    let insertados := (List.range raw.length).zipWith normalizarB raw
    (.exito insertados.length, insertados)
  else
    (.fallo, [])

/-- Extracts the order identifier from a variant A response. -/
def RespPedidosA.numeroDe : RespPedidosA → Option String
  | .exito n _ => some n
  | _ => none

/-- Claim C1: the claim asks that a per-product decrement succeed only when
current stock covers the requested quantity, so that two decrements whose
combined quantity exceeds the available stock never both succeed.  The
findByIdAndUpdate route decrements unconditionally after a non-atomic
read-then-check, so in the interleaving where both requests run their
verification reads against the initial state before either commits, both
orders for 3 units of a product with stock 5 succeed and the final stock is
minus 1: six units were sold out of five. -/
theorem c1_oversell_interleaving_variantB :
    (pedidosBFases [Medicamento.mk 0 "Paracetamol" 10 5 false]
        [Medicamento.mk 0 "Paracetamol" 10 5 false] 100
        [Item.mk 0 (JsVal.num 3)]).1 =
      RespPedidosB.exito "PED-100" [ItemPedidoB.mk 0 "Paracetamol" 3 10 5 2] ∧
    pedidosBFases [Medicamento.mk 0 "Paracetamol" 10 5 false]
        (pedidosBFases [Medicamento.mk 0 "Paracetamol" 10 5 false]
          [Medicamento.mk 0 "Paracetamol" 10 5 false] 100
          [Item.mk 0 (JsVal.num 3)]).2 200 [Item.mk 0 (JsVal.num 3)] =
      (RespPedidosB.exito "PED-200" [ItemPedidoB.mk 0 "Paracetamol" 3 10 5 (-1)],
        [Medicamento.mk 0 "Paracetamol" 10 (-1) false]) := by
  decide

/-- Claim C2: the claim asks that when a per-product decrement fails after
validation passed, every decrement already applied for the order be rolled
back and the caller receive an InsufficientStock failure.  In the
transactional variant, a conditional updateOne whose filter no longer matches
is a silent no-op inside the bulkWrite: with products A (stock 5) and B
(stock 1), after a concurrent order consumes the unit of B, the order for two
units of A and one of B still commits the decrement of A, reports success with
an order number, and even reports nuevoStock 0 for the line of B that was
never applied. -/
theorem c2_race_commits_partial_order_variantA :
    (pedidosA
        [Medicamento.mk 0 "Amoxicilina" 10 5 false,
          Medicamento.mk 1 "Ibuprofeno" 7 1 false]
        (Cache.mk none none 60000) 50 [Item.mk 1 (JsVal.num 1)]).2.1 =
      [Medicamento.mk 0 "Amoxicilina" 10 5 false,
        Medicamento.mk 1 "Ibuprofeno" 7 0 false] ∧
    pedidosAFases
        [Medicamento.mk 0 "Amoxicilina" 10 5 false,
          Medicamento.mk 1 "Ibuprofeno" 7 1 false]
        [Medicamento.mk 0 "Amoxicilina" 10 5 false,
          Medicamento.mk 1 "Ibuprofeno" 7 0 false]
        (Cache.mk none none 60000) 60
        [Item.mk 0 (JsVal.num 2), Item.mk 1 (JsVal.num 1)] =
      (RespPedidosA.exito "PED-60"
          [ItemPedidoA.mk 0 "Amoxicilina" 2 10 3, ItemPedidoA.mk 1 "Ibuprofeno" 1 7 0],
        [Medicamento.mk 0 "Amoxicilina" 10 3 false,
          Medicamento.mk 1 "Ibuprofeno" 7 0 false],
        Cache.mk none none 60000) := by
  decide

/-- Claim C3: the claim asks that quantities of duplicate lines for one
product be summed before the stock comparison and that an order whose
duplicate lines jointly exceed stock be rejected with the stock unchanged.
The transactional variant checks every line independently, so the order with
two lines of two units against stock 3 passes validation, commits (the second
conditional update silently matches nothing), answers success listing both
lines, and leaves the stock at 1 instead of 3. -/
theorem c3_duplicate_lines_accepted_variantA :
    pedidosA [Medicamento.mk 0 "Amoxicilina" 10 3 false]
        (Cache.mk none none 60000) 7
        [Item.mk 0 (JsVal.num 2), Item.mk 0 (JsVal.num 2)] =
      (RespPedidosA.exito "PED-7"
          [ItemPedidoA.mk 0 "Amoxicilina" 2 10 1, ItemPedidoA.mk 0 "Amoxicilina" 2 10 1],
        [Medicamento.mk 0 "Amoxicilina" 10 1 false],
        Cache.mk none none 60000) := by
  decide

/-- Claim C4: the claim asks that no reachable state hold a product with
negative stock.  The findByIdAndUpdate route decrements unconditionally, so
the single order with two lines of two units against stock 3 drives the stock
of the product to minus 1 while the handler reports success. -/
theorem c4_stock_goes_negative_variantB :
    pedidosB [Medicamento.mk 0 "Amoxicilina" 10 3 false] 7
        [Item.mk 0 (JsVal.num 2), Item.mk 0 (JsVal.num 2)] =
      (RespPedidosB.exito "PED-7"
          [ItemPedidoB.mk 0 "Amoxicilina" 2 10 3 1,
            ItemPedidoB.mk 0 "Amoxicilina" 2 10 3 (-1)],
        [Medicamento.mk 0 "Amoxicilina" 10 (-1) false]) := by
  decide

/-- Claim C5: the claim asks that a line whose quantity does not coerce to a
positive integer be rejected with a per-line InvalidQuantity error and never
silently dropped.  The order route of the transactional variant filters such
lines out before processing: an order with a NaN quantity for one product and
a valid line for another succeeds, answers with only the valid line, and the
dropped line appears in no error report. -/
theorem c5_invalid_quantity_silently_dropped_variantA :
    pedidosA
        [Medicamento.mk 0 "Amoxicilina" 10 5 false,
          Medicamento.mk 1 "Ibuprofeno" 7 5 false]
        (Cache.mk none none 60000) 3
        [Item.mk 0 JsVal.nan, Item.mk 1 (JsVal.num 1)] =
      (RespPedidosA.exito "PED-3" [ItemPedidoA.mk 1 "Ibuprofeno" 1 7 4],
        [Medicamento.mk 0 "Amoxicilina" 10 5 false,
          Medicamento.mk 1 "Ibuprofeno" 7 4 false],
        Cache.mk none none 60000) := by
  decide

/-- Claim C7: the claim asks that a catalog reload record with missing stock
and precio fields be normalized to 0 and still create the product, so that the
stored set equals the normalized input.  The first reload route does exactly
this, but the second route only normalizes the controlado flag: the schema
requires precio, the ordered insertMany rejects the batch after deleteMany
already ran, so the record creates no product and the collection is left
empty. -/
theorem c7_missing_fields_variantB_rejects_reload :
    cargarDatosB [RawMed.mk "Jarabe" none none none] = (RespCargar.fallo, []) ∧
    cargarDatosA [RawMed.mk "Jarabe" none none none] 44 =
      (RespCargar.exito 1, [Medicamento.mk 0 "Jarabe" 0 0 false],
        Cache.mk (some 44) (some [Medicamento.mk 0 "Jarabe" 0 0 false]) 60000) := by
  decide

/-- Claim C8: the claim asks that a fresh cache snapshot never be mutated
field-by-field, only replaced wholesale on refresh.  After a committed order
the transactional variant subtracts the ordered quantity from the stock field
of the cached entry in place: the data of the snapshot changes while its
capture timestamp stays at 100, so the entry changed between two
refreshes. -/
theorem c8_cache_mutated_in_place_variantA :
    (pedidosA [Medicamento.mk 0 "Paracetamol" 10 5 false]
        (Cache.mk (some 100) (some [Medicamento.mk 0 "Paracetamol" 10 5 false]) 60000)
        7 [Item.mk 0 (JsVal.num 2)]).2.2 =
      Cache.mk (some 100) (some [Medicamento.mk 0 "Paracetamol" 10 3 false]) 60000 ∧
    (Cache.mk (some 100) (some [Medicamento.mk 0 "Paracetamol" 10 3 false]) 60000).data ≠
      (Cache.mk (some 100) (some [Medicamento.mk 0 "Paracetamol" 10 5 false]) 60000).data := by
  decide

/-- Accumulator property of the digit printer underlying Nat.repr. -/
lemma toDigitsCore_acc (b fuel : Nat) :
    ∀ (n : Nat) (l : List Char),
      Nat.toDigitsCore b fuel n l = Nat.toDigitsCore b fuel n [] ++ l := by
  induction fuel with
  | zero => intro n l; simp [Nat.toDigitsCore]
  | succ f ih =>
    intro n l
    simp only [Nat.toDigitsCore]
    by_cases h : n / b = 0
    · simp [h]
    · simp only [h, if_false]
      rw [ih (n / b) (Nat.digitChar (n % b) :: l), ih (n / b) [Nat.digitChar (n % b)]]
      simp

/-- With enough fuel the digit printer produces the reversed base-10 digit
list of a positive number. -/
lemma toDigitsCore_eq_digits (fuel : Nat) :
    ∀ n : Nat, n < fuel → 0 < n →
      Nat.toDigitsCore 10 fuel n [] =
        ((Nat.digits 10 n).map Nat.digitChar).reverse := by
  induction fuel with
  | zero => intro n h; omega
  | succ f ih =>
    intro n hlt hpos
    have hd : Nat.digits 10 n = n % 10 :: Nat.digits 10 (n / 10) :=
      Nat.digits_def' (by norm_num) hpos
    simp only [Nat.toDigitsCore]
    by_cases h : n / 10 = 0
    · simp [h, hd, Nat.digits_zero]
    · simp only [h, if_false]
      rw [toDigitsCore_acc 10 f (n / 10) [Nat.digitChar (n % 10)]]
      rw [ih (n / 10)
        (by have h2 : n / 10 < n := Nat.div_lt_self hpos (by norm_num); omega)
        (Nat.pos_of_ne_zero h)]
      rw [hd]
      simp

/-- Nat.digitChar is injective on digits. -/
lemma digitChar_inj_lt : ∀ a < 10, ∀ b < 10,
    Nat.digitChar a = Nat.digitChar b → a = b := by decide

/-- Lists of digits mapping to the same character lists are equal. -/
lemma map_digitChar_inj :
    ∀ (l1 l2 : List Nat), (∀ x ∈ l1, x < 10) → (∀ x ∈ l2, x < 10) →
      l1.map Nat.digitChar = l2.map Nat.digitChar → l1 = l2 := by
  intro l1
  induction l1 with
  | nil => intro l2 _ _ h; cases l2 <;> simp_all
  | cons a t ih =>
    intro l2 h1 h2 h
    cases l2 with
    | nil => simp_all
    | cons b t2 =>
      simp only [List.map_cons, List.cons.injEq] at h
      have ha := h1 a (by simp)
      have hb := h2 b (by simp)
      have := digitChar_inj_lt a ha b hb h.1
      subst this
      rw [ih t2 (fun x hx => h1 x (by simp [hx])) (fun x hx => h2 x (by simp [hx])) h.2]

/-- Nat.repr of a positive number is the reversed digit-character list. -/
lemma natRepr_eq (n : Nat) (h : 0 < n) :
    Nat.repr n = (((Nat.digits 10 n).map Nat.digitChar).reverse).asString := by
  rw [Nat.repr, Nat.toDigits, toDigitsCore_eq_digits (n + 1) n (by omega) h]

/-- The decimal rendering of a natural number determines the number. -/
lemma natRepr_inj (m n : Nat) (h : Nat.repr m = Nat.repr n) : m = n := by
  rcases Nat.eq_zero_or_pos m with hm | hm
  · subst hm
    rcases Nat.eq_zero_or_pos n with hn | hn
    · exact hn.symm
    · exfalso
      rw [natRepr_eq n hn] at h
      have hdat : ['0'] = ((Nat.digits 10 n).map Nat.digitChar).reverse := by
        have := congrArg String.data h
        simpa [List.asString] using this
      have hmap : (Nat.digits 10 n).map Nat.digitChar = ['0'] := by
        have := congrArg List.reverse hdat
        simpa using this.symm
      have hdig : Nat.digits 10 n = [0] := by
        apply map_digitChar_inj
        · intro x hx; exact Nat.digits_lt_base (by norm_num) hx
        · intro x hx; simp at hx; omega
        · simpa using hmap
      have := Nat.ofDigits_digits 10 n
      rw [hdig] at this
      simp [Nat.ofDigits] at this
      omega
  · rcases Nat.eq_zero_or_pos n with hn | hn
    · subst hn
      exfalso
      rw [natRepr_eq m hm] at h
      have hdat : ((Nat.digits 10 m).map Nat.digitChar).reverse = ['0'] := by
        have hz : (Nat.repr 0).data = ['0'] := rfl
        have := congrArg String.data h
        simpa [List.asString, hz] using this
      have hmap : (Nat.digits 10 m).map Nat.digitChar = ['0'] := by
        have := congrArg List.reverse hdat
        simpa using this
      have hdig : Nat.digits 10 m = [0] := by
        apply map_digitChar_inj
        · intro x hx; exact Nat.digits_lt_base (by norm_num) hx
        · intro x hx; simp at hx; omega
        · simpa using hmap
      have := Nat.ofDigits_digits 10 m
      rw [hdig] at this
      simp [Nat.ofDigits] at this
      omega
    · rw [natRepr_eq m hm, natRepr_eq n hn] at h
      have hdat := congrArg String.data h
      simp only [List.asString] at hdat
      have hrev : ((Nat.digits 10 m).map Nat.digitChar) =
          ((Nat.digits 10 n).map Nat.digitChar) := by
        have := congrArg List.reverse hdat
        simpa using this
      have hdig : Nat.digits 10 m = Nat.digits 10 n := by
        apply map_digitChar_inj _ _ _ _ hrev
        · intro x hx; exact Nat.digits_lt_base (by norm_num) hx
        · intro x hx; exact Nat.digits_lt_base (by norm_num) hx
      have h1 := Nat.ofDigits_digits 10 m
      have h2 := Nat.ofDigits_digits 10 n
      rw [hdig] at h1
      omega

/-- Claim C9, counterexample: the identifier is PED- followed by Date.now()
in milliseconds only, so two distinct accepted orders processed in the same
millisecond receive the same confirmation identifier: the claim that every
pair of distinct accepted orders gets distinct identifiers fails. -/
theorem c9_same_millisecond_identifier_collision :
    [Item.mk 0 (JsVal.num 1)] ≠ [Item.mk 0 (JsVal.num 2)] ∧
    (pedidosA [Medicamento.mk 0 "Paracetamol" 10 5 false]
        (Cache.mk none none 60000) 1000 [Item.mk 0 (JsVal.num 1)]).1.numeroDe =
      some "PED-1000" ∧
    (pedidosA [Medicamento.mk 0 "Paracetamol" 10 5 false]
        (Cache.mk none none 60000) 1000 [Item.mk 0 (JsVal.num 2)]).1.numeroDe =
      some "PED-1000" := by
  decide

/-- Claim C9, amended: the confirmation identifier is the fixed tag PED-
followed by the decimal rendering of the acceptance timestamp, so identifiers
of orders accepted at distinct timestamps are distinct; orders accepted within
the same millisecond share one identifier. -/
theorem c9_distinct_timestamps_distinct_identifiers (t1 t2 : Nat)
    (h : t1 ≠ t2) : numeroPedido t1 ≠ numeroPedido t2 := by
  intro he
  apply h
  apply natRepr_inj
  have hdat := congrArg String.data he
  simp only [numeroPedido, String.data_append] at hdat
  have hts : (toString t1).data = (toString t2).data :=
    List.append_cancel_left hdat
  have h1 : toString t1 = Nat.repr t1 := rfl
  have h2 : toString t2 = Nat.repr t2 := rfl
  rw [h1, h2] at hts
  exact String.ext hts

/-- Claim C9, witness: two concrete distinct timestamps give distinct
identifiers. -/
theorem c9_distinct_timestamps_distinct_identifiers_witness :
    numeroPedido 1 ≠ numeroPedido 2 :=
  c9_distinct_timestamps_distinct_identifiers 1 2 (by decide)

/-- A single verification step returns the store unchanged (variant A). -/
lemma verificarItemA_snd (s : Store) (it : Item) : (verificarItemA s it).2 = s := by
  unfold verificarItemA
  cases findById s it.id <;> simp only [] <;> split_ifs <;> rfl

/-- A single verification step returns the store unchanged (variant B). -/
lemma verificarItemB_snd (s : Store) (it : Item) : (verificarItemB s it).2 = s := by
  unfold verificarItemB
  cases findById s it.id <;> simp only [] <;> split_ifs <;> rfl

/-- Threading all verification reads leaves the store unchanged (variant A). -/
lemma mapStore_snd (l : List Item) : ∀ s : Store,
    (mapStore verificarItemA s l).2 = s := by
  induction l with
  | nil => intro s; rfl
  | cons it rest ih =>
    intro s
    simp only [mapStore]
    rw [ih ((verificarItemA s it).2), verificarItemA_snd]

/-- Threading all verification reads leaves the store unchanged (variant B). -/
lemma mapStoreB_snd (l : List Item) : ∀ s : Store,
    (mapStoreB verificarItemB s l).2 = s := by
  induction l with
  | nil => intro s; rfl
  | cons it rest ih =>
    intro s
    simp only [mapStoreB]
    rw [ih ((verificarItemB s it).2), verificarItemB_snd]

/-- Claim C10: the stock-verification endpoint is read-only in both variants:
whatever the items and whatever branch the handler takes (success, per-line
rejection or error verdicts), the product collection after the request equals
the collection before it, every field of every product included. -/
theorem c10_verificar_stock_read_only (store : Store) (items : List Item) :
    (verificarStockA store items).2 = store ∧
    (verificarStockB store items).2 = store := by
  constructor
  · simp only [verificarStockA]
    split_ifs <;> exact mapStore_snd items store
  · simp only [verificarStockB]
    split_ifs <;> exact mapStoreB_snd items store

/-- Claim C6: both the stock-verification route and the order route collect
their per-line failures over all lines before answering: every line whose
verdict is invalid appears in the error list of the rejection response, not
only the first failing line. -/
theorem c6_complete_per_line_error_report (store : Store) (cache : Cache)
    (now : Nat) (items : List Item) :
    (∀ v ∈ (mapStore verificarItemA store items).1, v.esValido = false →
      ∃ es, (verificarStockA store items).1 = RespVerificarA.problemas es ∧
        v ∈ es) ∧
    (∀ o ∈ (itemsValidados items).map (prepararOperacion store),
      o.esValida = false →
      ∃ es, (pedidosA store cache now items).1 = RespPedidosA.rechazado es ∧
        o ∈ es) := by
  constructor
  · intro v hv hval
    have hmem : v ∈ (mapStore verificarItemA store items).1.filter
        (fun x => !x.esValido) :=
      List.mem_filter.mpr ⟨hv, by simp [hval]⟩
    have hlen : 0 < ((mapStore verificarItemA store items).1.filter
        (fun x => !x.esValido)).length :=
      List.length_pos.mpr (List.ne_nil_of_mem hmem)
    refine ⟨_, ?_, hmem⟩
    simp only [verificarStockA, hlen, if_pos]
  · intro o ho hval
    have hne : ¬ (itemsValidados items).length = 0 := by
      have h1 := List.ne_nil_of_mem ho
      intro h0
      rw [List.length_eq_zero] at h0
      simp [h0] at h1
    have hmem : o ∈ ((itemsValidados items).map
        (prepararOperacion store)).filter (fun x => !x.esValida) :=
      List.mem_filter.mpr ⟨ho, by simp [hval]⟩
    have hlen : 0 < (((itemsValidados items).map
        (prepararOperacion store)).filter (fun x => !x.esValida)).length :=
      List.length_pos.mpr (List.ne_nil_of_mem hmem)
    refine ⟨_, ?_, hmem⟩
    simp only [pedidosA, pedidosAFases, hne, if_neg, hlen, if_pos, ite_false,
      ite_true]

/-- Claim C6, witness: a request whose second line names a missing product
while its first line already fails the stock check still reports the second
failure in the error list of both endpoints. -/
theorem c6_complete_per_line_error_report_witness :
    (∃ es, (verificarStockA [Medicamento.mk 1 "Ibuprofeno" 7 5 false]
        [Item.mk 1 (JsVal.num 9), Item.mk 2 (JsVal.num 1)]).1 =
      RespVerificarA.problemas es ∧ VerdictA.noEncontrado 2 ∈ es) ∧
    (∃ es, (pedidosA [Medicamento.mk 1 "Ibuprofeno" 7 5 false]
        (Cache.mk none none 60000) 7
        [Item.mk 1 (JsVal.num 9), Item.mk 2 (JsVal.num 1)]).1 =
      RespPedidosA.rechazado es ∧ OpA.errNoEncontrado 2 ∈ es) :=
  ⟨(c6_complete_per_line_error_report [Medicamento.mk 1 "Ibuprofeno" 7 5 false]
      (Cache.mk none none 60000) 7
      [Item.mk 1 (JsVal.num 9), Item.mk 2 (JsVal.num 1)]).1
      (VerdictA.noEncontrado 2) (by decide) (by decide),
    (c6_complete_per_line_error_report [Medicamento.mk 1 "Ibuprofeno" 7 5 false]
      (Cache.mk none none 60000) 7
      [Item.mk 1 (JsVal.num 9), Item.mk 2 (JsVal.num 1)]).2
      (OpA.errNoEncontrado 2) (by decide) (by decide)⟩
